import Mathlib

/-!
Verification development for the simulated-browser repository.

The data model and the handlers below are shallow embeddings of
`src/types.ts`, `src/App.tsx` and `src/services/geminiService.ts`.

Modelling conventions, fixed once for the whole file:

* React `useState` semantics are modelled faithfully: an event handler
  reads the state snapshot of the render it was created in, while every
  `setTabs(prev => ...)` / `setSiteCache(prev => ...)` call enqueues a
  functional update that is applied, in program order, to the evolving
  state.  A handler is therefore a function from the snapshot state (plus
  the outcomes of its external calls) to the final state obtained after
  all its enqueued updates, `await` continuations and `setTimeout`
  completions have landed.  Simulated delays (the numeric arguments of
  `setTimeout`) do not influence the final state of a single handler flow
  and are not represented.
* External collaborator calls (the generative-AI service) are parameters:
  the raw `response.text` of a model call is an `Except String (Option
  String)` (an error message, or the possibly-undefined text), the
  negotiation reply is a `(reply, agreedToRemove)` pair, and JSON parsing
  of search results is an uninterpreted `String → Except Unit (List
  SearchResult)` parameter.
* `new URL(u).hostname` is a platform call, modelled by a parameter
  `hostname : String → Option String`; `none` models the constructor
  throwing on an invalid URL.
* Machine timestamps (`Date.now()`) are `Nat` parameters.
-/

set_option maxHeartbeats 1000000

namespace RknSim

/-- Enumeration of censorship statuses, from `src/types.ts` (`SiteStatus`). -/
inductive SiteStatus where
  | NORMAL
  | SLOWED
  | BLOCKED
  | CONTENT_REMOVED
  | UNDER_APPEAL
deriving DecidableEq

/-- Speaker of a chat message, from `src/types.ts` (`ChatMessage.role`). -/
inductive ChatRole where
  | user
  | model
deriving DecidableEq

/-- Chat transcript entry, from `src/types.ts` (`ChatMessage`). -/
structure ChatMessage where
  role : ChatRole
  text : String
  timestamp : Nat
deriving DecidableEq

/-- Search result row, from `src/types.ts` (`SearchResult`). -/
structure SearchResult where
  title : String
  url : String
  snippet : String
deriving DecidableEq

/-- Court verdict kind, from `src/types.ts` (`CourtVerdict.verdict`). -/
inductive Verdict where
  | UPHOLD
  | OVERTURN
deriving DecidableEq

/-- Per-URL cached site record, from `src/App.tsx` (`CachedSiteData`). -/
structure CachedSiteData where
  url : String
  title : String
  content : Option String
  status : SiteStatus
  chatHistory : List ChatMessage
  lastVisited : Nat
deriving DecidableEq

/-- Browser tab state, from `src/types.ts` (`BrowserTab`). -/
structure BrowserTab where
  id : String
  url : String
  title : String
  isLoading : Bool
  history : List String
  historyIndex : Nat
  content : Option String
  status : SiteStatus
  chatHistory : List ChatMessage
  error : Option String
deriving DecidableEq

/-- The site cache: the `Record<string, CachedSiteData>` map held in the
`siteCache` React state of `src/App.tsx`. -/
abbrev SiteCache := String → Option CachedSiteData

/-- A `Partial<CachedSiteData>` argument to `updateCache` in `src/App.tsx`:
each field is `some v` when the partial object carries it.  (`content :=
some none` models a present field holding `null`.)  A `lastVisited` entry
in the partial would be overwritten by the trailing `lastVisited:
Date.now()` of the spread, so the merge below ignores it. -/
structure SitePatch where
  url : Option String := none
  title : Option String := none
  content : Option (Option String) := none
  status : Option SiteStatus := none
  chatHistory : Option (List ChatMessage) := none
  lastVisited : Option Nat := none
deriving DecidableEq

/-- Default record created by `updateCache` when a URL is absent from the
cache (`src/App.tsx`, the `existing` object): `{url, title: new
URL(url).hostname, content: null, status: NORMAL, chatHistory: [],
lastVisited: Date.now()}`. -/
def defaultRecord (host url : String) (now : Nat) : CachedSiteData :=
  { url := url, title := host, content := none, status := .NORMAL,
    chatHistory := [], lastVisited := now }

/-- The spread `{...existing, ...data, lastVisited: Date.now()}` of
`updateCache` in `src/App.tsx`: fields present in the partial overwrite
the existing ones, and `lastVisited` is always refreshed last. -/
def mergeRecord (existing : CachedSiteData) (data : SitePatch) (now : Nat) : CachedSiteData :=
  { url := data.url.getD existing.url
    title := data.title.getD existing.title
    content := data.content.getD existing.content
    status := data.status.getD existing.status
    chatHistory := data.chatHistory.getD existing.chatHistory
    lastVisited := now }

/-- The `updateCache` helper of `src/App.tsx`.  Its body is a single
`setSiteCache(prev => ...)` call and the arrow function has no `return`
statement, so the pair holds (the functional update handed to
`setSiteCache`, the call's own return value — `undefined`, i.e. `none`).
When the URL is absent the default record's title is `new
URL(url).hostname`; the `getD url` arm stands for the (unreached by any
theorem below) case in which the URL constructor would throw inside the
updater. -/
def updateCache (hostname : String → Option String) (now : Nat) (url : String)
    (data : SitePatch) : (SiteCache → SiteCache) × Option CachedSiteData :=
  (fun prev =>
    let existing := match prev url with
      | some r => r
      | none => defaultRecord ((hostname url).getD url) url now
    fun u => if u = url then some (mergeRecord existing data now) else prev u,
   none)

/-! Embedding of `src/services/geminiService.ts`. -/

/-- The backtick character (code point 96). -/
def backtickChar : Char := Char.ofNat 96

/-- One character of the `[a-z]` class under the `i` flag, as used by the
fence-stripping regex of `cleanResponse`. -/
def isFenceLetter (c : Char) : Bool :=
  (97 ≤ c.toNat && c.toNat ≤ 122) || (65 ≤ c.toNat && c.toNat ≤ 90)

/-- After an opening triple backtick, consume `[a-z]*` (case-insensitive)
followed by a newline; `none` when the regex `[a-z]*\n` does not match
here. -/
def dropFenceTail : List Char → Option (List Char)
  | [] => none
  | c :: cs =>
    if c = Char.ofNat 10 then some cs
    else if isFenceLetter c then dropFenceTail cs
    else none

/-- First global replace of `cleanResponse`: scan the text and delete
every non-overlapping match of the pattern "three backticks, then ASCII
letters, then a newline".  The `fuel` argument bounds the number of scan
steps (each consumes at least one character) so the recursion is
structural and kernel-computable; callers pass the text's length, which
always suffices, and the fuel-exhausted arm is unreachable. -/
def stripFences1 : Nat → List Char → List Char
  | 0, l => l
  | _ + 1, [] => []
  | _ + 1, [c] => [c]
  | _ + 1, [c, d] => [c, d]
  | fuel + 1, c :: d :: e :: rest =>
    if c = backtickChar ∧ d = backtickChar ∧ e = backtickChar then
      match dropFenceTail rest with
      | some rest2 => stripFences1 fuel rest2
      | none => c :: stripFences1 fuel (d :: e :: rest)
    else c :: stripFences1 fuel (d :: e :: rest)

/-- Second global replace of `cleanResponse`: delete every remaining
non-overlapping triple backtick, with the same fuel convention. -/
def stripFences2 : Nat → List Char → List Char
  | 0, l => l
  | _ + 1, [] => []
  | _ + 1, [c] => [c]
  | _ + 1, [c, d] => [c, d]
  | fuel + 1, c :: d :: e :: rest =>
    if c = backtickChar ∧ d = backtickChar ∧ e = backtickChar then
      stripFences2 fuel rest
    else c :: stripFences2 fuel (d :: e :: rest)

/-- One character the JavaScript `trim` removes (ASCII fragment of its
whitespace set; the additional Unicode space characters do not occur in
the strings of this development). -/
def isJsSpace (c : Char) : Bool :=
  c = ' ' ∨ c = Char.ofNat 9 ∨ c = Char.ofNat 10 ∨ c = Char.ofNat 11 ∨
    c = Char.ofNat 12 ∨ c = Char.ofNat 13

/-- Remove leading and trailing whitespace, as `String.prototype.trim`. -/
def trimChars (l : List Char) : List Char :=
  ((l.dropWhile isJsSpace).reverse.dropWhile isJsSpace).reverse

/-- The `cleanResponse` helper of `src/services/geminiService.ts`: a falsy
(`undefined` or empty) text maps to `""`; otherwise the two fence
replaces run in order and the result is trimmed. -/
def cleanResponse (text : Option String) : String :=
  match text with
  | none => ""
  | some t =>
    if t = "" then ""
    else
      let l1 := stripFences1 t.toList.length t.toList
      String.mk (trimChars (stripFences2 l1.length l1))

/-- The hard-coded fallback list returned by `searchWeb` on error. -/
def fallbackResults : List SearchResult :=
  [ { title := "Twitch", url := "https://www.twitch.tv/", snippet := "Платформа для прямых трансляций." }
  , { title := "Steam", url := "https://store.steampowered.com/", snippet := "Добро пожаловать в Steam." }
  , { title := "Epic Games Store", url := "https://store.epicgames.com/", snippet := "Загружайте и играйте в игры для ПК." }
  , { title := "Roblox", url := "https://www.roblox.com/", snippet := "Игровая онлайн-платформа и система создания игр." }
  , { title := "Архив WikiLeaks", url := "https://leaks.org/docs", snippet := "Архив засекреченных документов." } ]

/-- The `searchWeb` function of `src/services/geminiService.ts`.  `call`
is the outcome of the awaited model request (its `response.text`), and
`parse` is the `JSON.parse(text) as SearchResult[]` step, whose own
failure is caught by the surrounding `try`.  Every failure path lands in
the `catch`, which returns the fixed fallback list; nothing is ever
truncated to five entries. -/
def searchWeb (call : Except Unit (Option String))
    (parse : String → Except Unit (List SearchResult)) : List SearchResult :=
  match call with
  | .error _ => fallbackResults
  | .ok respText =>
    let text := cleanResponse respText
    if text = "" then []
    else
      match parse text with
      | .ok rs => rs
      | .error _ => fallbackResults

/-- The `generatePageContent` function of `src/services/geminiService.ts`.
`api` is the outcome of the awaited model request (`response.text`, or
the thrown error's message).  The function never rejects: an internal
error is converted by its own `catch` into an error-text HTML body.  The
`url`, `title` and `isCensored` arguments only shape the prompt sent to
the external model (a non-goal of the specification) and therefore do
not influence the returned value beyond the `api` parameter. -/
def generatePageContent (api : Except String (Option String))
    (url title : String) (isCensored : Bool) : String :=
  match api with
  | .ok respText =>
    let text := cleanResponse respText
    "<div class=\"min-h-[150vh] bg-white text-gray-900 font-sans\">"
      ++ (if text = "" then "Failed to load content." else text) ++ "</div>"
  | .error msg => "<div class=\"p-8\">Ошибка генерации контента: " ++ msg ++ "</div>"

/-! Embedding of the application state and handlers of `src/App.tsx`. -/

/-- The three pieces of React state the claims depend on: `siteCache`,
`tabs` and `activeTabId`. -/
structure AppState where
  siteCache : SiteCache
  tabs : List BrowserTab
  activeTabId : String

/-- The map inside the `updateTab` helper: `prev.map(tab => tab.id === id
? {...tab, ...updates} : tab)`, with the spread of a concrete partial
object rendered as the record update `f`. -/
def updateTabF (id : String) (f : BrowserTab → BrowserTab)
    (tabs : List BrowserTab) : List BrowserTab :=
  tabs.map (fun t => if t.id == id then f t else t)

/-- The `updateTab` helper of `src/App.tsx`: a functional `setTabs`
update, applied here to the accumulated state. -/
def updateTab (id : String) (f : BrowserTab → BrowserTab) (s : AppState) : AppState :=
  { s with tabs := updateTabF id f s.tabs }

/-- A functional `setSiteCache` update, applied to the accumulated
state. -/
def setCache (f : SiteCache → SiteCache) (s : AppState) : AppState :=
  { s with siteCache := f s.siteCache }

/-- JavaScript truthiness of `cachedSite && cachedSite.content`: a record
is present and its content is a non-empty string. -/
def contentTruthy : Option CachedSiteData → Bool
  | some c =>
    match c.content with
    | some body => !(body == "")
    | none => false
  | none => false

/-- Status a navigation resolves against: `cachedSite ? cachedSite.status
: SiteStatus.NORMAL` in `handleNavigate`. -/
def cacheStatus : Option CachedSiteData → SiteStatus
  | some c => c.status
  | none => .NORMAL

/-- The uncached branch of `handleNavigate` (`src/App.tsx`, the `try` /
`catch` at the end of the function).  `new URL(url)` failing rejects the
whole `try` into the `catch`; otherwise `generatePageContent` always
resolves and its result is written into the cache with `status:
SiteStatus.NORMAL` and shown in the tab. -/
def navigateGenerate (hostname : String → Option String)
    (api : Except String (Option String)) (now : Nat)
    (url targetTabId : String) (currentStatus : SiteStatus)
    (s1 : AppState) : AppState :=
  match hostname url with
  | none =>
    updateTab targetTabId
      (fun t => { t with isLoading := false, error := some "ERR_CONNECTION_TIMED_OUT" }) s1
  | some title =>
    let html := generatePageContent api url title (currentStatus = .CONTENT_REMOVED)
    let s2 := setCache
      (updateCache hostname now url
        { content := some (some html), title := some title, status := some .NORMAL }).1 s1
    updateTab targetTabId
      (fun t => { t with isLoading := false, content := some html, title := title }) s2

/-- The `handleNavigate` handler of `src/App.tsx`.  `s` is the render
snapshot the handler closes over; returned is the state after every
enqueued update (including the delayed `setTimeout` completion of the
taken branch) has been applied in order. -/
def handleNavigate (hostname : String → Option String)
    (api : Except String (Option String)) (now : Nat)
    (s : AppState) (url : String) (newTabId : Option String) : AppState :=
  let targetTabId := newTabId.getD s.activeTabId
  match s.tabs.find? (fun t => t.id == targetTabId) with
  | none => s
  | some targetTab =>
    if url = "about:home" then
      updateTab targetTabId (fun t =>
        { t with url := "about:home", title := "Новая вкладка", content := none, error := none,
                 history := targetTab.history.take (targetTab.historyIndex + 1) ++ ["about:home"],
                 historyIndex := targetTab.historyIndex + 1 }) s
    else
      let cachedSite := s.siteCache url
      let s1 := updateTab targetTabId (fun t =>
        { t with url := url,
                 title := (match cachedSite with | some c => c.title | none => url),
                 isLoading := true, error := none,
                 status := cacheStatus cachedSite,
                 chatHistory := (match cachedSite with | some c => c.chatHistory | none => []),
                 history := targetTab.history.take (targetTab.historyIndex + 1) ++ [url],
                 historyIndex := targetTab.historyIndex + 1 }) s
      let currentStatus := cacheStatus cachedSite
      if currentStatus = .BLOCKED then
        updateTab targetTabId
          (fun t => { t with isLoading := false, error := some "ERR_CONNECTION_RESET" }) s1
      else if contentTruthy cachedSite then
        updateTab targetTabId (fun t =>
          { t with isLoading := false,
                   content := (match cachedSite with | some c => c.content | none => t.content),
                   title := (match cachedSite with | some c => c.title | none => t.title) }) s1
      else navigateGenerate hostname api now url targetTabId currentStatus s1

/-- The uncached branch of `reloadContentForUrl` (`src/App.tsx`): like the
navigation one, but the cache write carries only `{content: html}` and
the failure error code is `ERR_LOAD`. -/
def reloadGenerate (hostname : String → Option String)
    (api : Except String (Option String)) (now : Nat)
    (url tabId : String) (currentStatus : SiteStatus)
    (s1 : AppState) : AppState :=
  match hostname url with
  | none =>
    updateTab tabId (fun t => { t with isLoading := false, error := some "ERR_LOAD" }) s1
  | some host =>
    let html := generatePageContent api url host (currentStatus = .CONTENT_REMOVED)
    let s2 := setCache (updateCache hostname now url { content := some (some html) }).1 s1
    updateTab tabId
      (fun t => { t with isLoading := false, content := some html, title := host }) s2

/-- The `reloadContentForUrl` helper of `src/App.tsx`.  Its reads (`tabs`,
`siteCache`) hit the render snapshot `s0` of the handler that called it,
while its updates apply to the accumulated state `s` — the function is
invoked in the same event-handler flow as the cache/tab updates that
precede it, which are not yet visible in `s0`. -/
def reloadContentForUrl (hostname : String → Option String)
    (api : Except String (Option String)) (now : Nat)
    (s0 s : AppState) (url tabId : String) : AppState :=
  match s0.tabs.find? (fun t => t.id == tabId) with
  | none => s
  | some tab =>
    let cachedSite := s0.siteCache url
    let currentStatus := match cachedSite with
      | some c => c.status
      | none => tab.status
    let s1 := updateTab tabId
      (fun t => { t with isLoading := true, error := none, status := currentStatus }) s
    if currentStatus = .BLOCKED then
      updateTab tabId
        (fun t => { t with isLoading := false, error := some "ERR_CONNECTION_RESET" }) s1
    else if contentTruthy cachedSite then
      updateTab tabId (fun t =>
        { t with isLoading := false,
                 content := (match cachedSite with | some c => c.content | none => t.content),
                 title := (match cachedSite with | some c => c.title | none => t.title) }) s1
    else reloadGenerate hostname api now url tabId currentStatus s1

/-- The `handleBack` handler of `src/App.tsx`.  `tab.history[newIndex]`
is in bounds whenever the history invariant holds; `List.getD` with `""`
stands for the JavaScript indexing. -/
def handleBack (hostname : String → Option String)
    (api : Except String (Option String)) (now : Nat) (s : AppState) : AppState :=
  match s.tabs.find? (fun t => t.id == s.activeTabId) with
  | none => s
  | some tab =>
    if 0 < tab.historyIndex then
      let newIndex := tab.historyIndex - 1
      let prevUrl := tab.history.getD newIndex ""
      let s1 := updateTab s.activeTabId
        (fun t => { t with historyIndex := newIndex, url := prevUrl }) s
      if prevUrl = "about:home" then
        updateTab s.activeTabId
          (fun t => { t with content := none, error := none, title := "Новая вкладка" }) s1
      else reloadContentForUrl hostname api now s s1 prevUrl tab.id
    else s

/-- The `handleForward` handler of `src/App.tsx`. -/
def handleForward (hostname : String → Option String)
    (api : Except String (Option String)) (now : Nat) (s : AppState) : AppState :=
  match s.tabs.find? (fun t => t.id == s.activeTabId) with
  | none => s
  | some tab =>
    if tab.historyIndex < tab.history.length - 1 then
      let newIndex := tab.historyIndex + 1
      let nextUrl := tab.history.getD newIndex ""
      let s1 := updateTab s.activeTabId
        (fun t => { t with historyIndex := newIndex, url := nextUrl }) s
      if nextUrl = "about:home" then
        updateTab s.activeTabId
          (fun t => { t with content := none, error := none, title := "Новая вкладка" }) s1
      else reloadContentForUrl hostname api now s s1 nextUrl tab.id
    else s

/-- The `handleBlock` handler of `src/App.tsx`.  `willAppeal` is the drawn
`Math.random() < 0.4` outcome.  The trailing `reloadContentForUrl` call
receives the handler's own render snapshot `s` as its read state. -/
def handleBlock (hostname : String → Option String)
    (api : Except String (Option String)) (now : Nat)
    (willAppeal : Bool) (s : AppState) : AppState :=
  match s.tabs.find? (fun t => t.id == s.activeTabId) with
  | none => s
  | some active =>
    if active.url = "about:home" then s
    else
      let newStatus := if willAppeal then SiteStatus.UNDER_APPEAL else SiteStatus.BLOCKED
      let s1 := setCache (updateCache hostname now active.url { status := some newStatus }).1 s
      let s2 := updateTab s.activeTabId (fun t => { t with status := newStatus }) s1
      reloadContentForUrl hostname api now s s2 active.url active.id

/-- The `handleCourtClose` handler of `src/App.tsx` (the `isCourtOpen`
flag is UI state outside the claims).  As in `handleBlock`, the trailing
reload reads the handler's render snapshot `s`. -/
def handleCourtClose (hostname : String → Option String)
    (api : Except String (Option String)) (now : Nat)
    (finalVerdict : Verdict) (s : AppState) : AppState :=
  match s.tabs.find? (fun t => t.id == s.activeTabId) with
  | none => s
  | some active =>
    let newStatus := if finalVerdict = .UPHOLD then SiteStatus.BLOCKED else SiteStatus.NORMAL
    let s1 := setCache (updateCache hostname now active.url { status := some newStatus }).1 s
    let s2 := updateTab s.activeTabId (fun t => { t with status := newStatus }) s1
    reloadContentForUrl hostname api now s s2 active.url active.id

/-- The `handleChatSendMessage` handler of `src/App.tsx`.  `reply` and
`agreedToRemove` are the resolved response of `chatWithSiteOwner` (which
itself fails closed and always resolves); `now1`/`now2` are the
`Date.now()` readings before and after the await.  When the owner agrees,
the trailing `reloadContentForUrl` again reads the render snapshot `s`. -/
def handleChatSendMessage (hostname : String → Option String)
    (api : Except String (Option String)) (reply : String) (agreedToRemove : Bool)
    (now1 now2 : Nat) (text : String) (s : AppState) : AppState :=
  match s.tabs.find? (fun t => t.id == s.activeTabId) with
  | none => s
  | some tab =>
    if tab.url = "about:home" then s
    else
      let currentHistory := tab.chatHistory
      let newHistory := currentHistory ++ [{ role := .user, text := text, timestamp := now1 }]
      let s1 := updateTab s.activeTabId (fun t => { t with chatHistory := newHistory }) s
      let s2 := setCache (updateCache hostname now1 tab.url { chatHistory := some newHistory }).1 s1
      let finalHistory := newHistory ++ [{ role := .model, text := reply, timestamp := now2 }]
      let statusUpdates : SitePatch :=
        if agreedToRemove then
          { chatHistory := some finalHistory, status := some .CONTENT_REMOVED, content := some none }
        else { chatHistory := some finalHistory }
      let s3 := setCache (updateCache hostname now2 tab.url statusUpdates).1 s2
      let s4 := updateTab s.activeTabId (fun t =>
        if agreedToRemove then { t with chatHistory := finalHistory, status := .CONTENT_REMOVED }
        else { t with chatHistory := finalHistory }) s3
      if agreedToRemove then reloadContentForUrl hostname api now2 s s4 tab.url tab.id
      else s4

/-- A fresh tab as built by the initial state and by `handleNewTab` in
`src/App.tsx` (the random `generateId()` is the `id` parameter). -/
def initialTab (id : String) : BrowserTab :=
  { id := id, url := "about:home", title := "Новая вкладка", isLoading := false,
    history := ["about:home"], historyIndex := 0, content := none, status := .NORMAL,
    chatHistory := [], error := none }

/-- The `handleNewTab` handler of `src/App.tsx`. -/
def handleNewTab (newId : String) (s : AppState) : AppState :=
  { s with tabs := s.tabs ++ [initialTab newId], activeTabId := newId }

/-- The `handleCloseTab` handler of `src/App.tsx`.  When the closed tab
was active the new active id is `newTabs[newTabs.length - 1].id`; the
`none` arm of `getLast?` stands for the out-of-bounds crash that distinct
tab ids make unreachable. -/
def handleCloseTab (id : String) (s : AppState) : AppState :=
  if s.tabs.length = 1 then s
  else
    let newTabs := s.tabs.filter (fun t => t.id != id)
    { siteCache := s.siteCache, tabs := newTabs,
      activeTabId :=
        if s.activeTabId == id then
          match newTabs.getLast? with
          | some t => t.id
          | none => s.activeTabId
        else s.activeTabId }

/-- Initial application state: one fresh tab, its id active, and the
cache loaded at startup (`c0`). -/
def initAppState (c0 : SiteCache) (id : String) : AppState :=
  { siteCache := c0, tabs := [initialTab id], activeTabId := id }

/-! Operation sequences, for the two invariant claims. -/

/-- User navigation operations on the active tab; each carries the
external-call outcome its handler consumes. -/
inductive NavOp where
  | nav (url : String) (api : Except String (Option String))
  | back (api : Except String (Option String))
  | fwd (api : Except String (Option String))

/-- Apply one navigation operation. -/
def applyNavOp (hostname : String → Option String) (now : Nat)
    (s : AppState) : NavOp → AppState
  | .nav url api => handleNavigate hostname api now s url none
  | .back api => handleBack hostname api now s
  | .fwd api => handleForward hostname api now s

/-- Run a sequence of navigation operations. -/
def runNavOps (hostname : String → Option String) (now : Nat)
    (ops : List NavOp) (s : AppState) : AppState :=
  ops.foldl (applyNavOp hostname now) s

/-- The unique tab of a state produced from the initial single-tab state
by navigation operations. -/
def theTab (s : AppState) : BrowserTab :=
  s.tabs.headD (initialTab "")

/-- The navigation-relevant projection of a tab: its id, history stack
and history position.  Content reloads never change it. -/
def navProj (t : BrowserTab) : String × List String × Nat :=
  (t.id, t.history, t.historyIndex)

/-- Tab management operations. -/
inductive TabOp where
  | newTab (id : String)
  | closeTab (id : String)

/-- Apply one tab operation. -/
def applyTabOp (s : AppState) : TabOp → AppState
  | .newTab id => handleNewTab id s
  | .closeTab id => handleCloseTab id s

/-- Run a sequence of tab operations. -/
def runTabOps (ops : List TabOp) (s : AppState) : AppState :=
  ops.foldl applyTabOp s

/-- A new-tab operation's random id avoids the ids currently in use
(collisions of `generateId()` are outside the model). -/
def opFresh (s : AppState) : TabOp → Bool
  | .newTab id => s.tabs.all (fun t => t.id != id)
  | .closeTab _ => true

/-- Stepwise freshness of the ids drawn along a whole operation
sequence. -/
def opsFresh : AppState → List TabOp → Bool
  | _, [] => true
  | s, op :: rest => opFresh s op && opsFresh (applyTabOp s op) rest

/-- The tab-list invariant of claim C10: some tab is open, the active id
denotes an open tab, and tab ids are pairwise distinct. -/
def TabInv (s : AppState) : Prop :=
  s.tabs ≠ [] ∧ (∃ t ∈ s.tabs, t.id = s.activeTabId) ∧ (s.tabs.map (fun t => t.id)).Nodup

/-! Concrete fixtures, used by witnesses and counterexamples. -/

/-- A sample URL. -/
def exUrl : String := "https://example.com"

/-- A hostname parser defined on the sample URL only. -/
def exHost : String → Option String :=
  fun u => if u = exUrl then some "example.com" else none

/-- A cache holding exactly one record, for the sample URL. -/
def exCacheWith (r : CachedSiteData) : SiteCache :=
  fun u => if u = exUrl then some r else none

/-- A record for the sample URL with the given status and content. -/
def exRecordWith (st : SiteStatus) (content : Option String) : CachedSiteData :=
  { url := exUrl, title := "example.com", content := content, status := st,
    chatHistory := [], lastVisited := 0 }

/-- A tab viewing the sample URL with the given status and content. -/
def exTabWith (st : SiteStatus) (content : Option String) : BrowserTab :=
  { id := "t1", url := exUrl, title := "example.com", isLoading := false,
    history := ["about:home", exUrl], historyIndex := 1, content := content,
    status := st, chatHistory := [], error := none }

/-- A one-tab state viewing the sample URL, with record and tab agreeing
on status and content. -/
def exStateWith (st : SiteStatus) (content : Option String) : AppState :=
  { siteCache := exCacheWith (exRecordWith st content),
    tabs := [exTabWith st content], activeTabId := "t1" }

/-- A one-tab state whose tab transcript snapshot is stale: the record
already holds an earlier owner entry that the tab's snapshot lacks (as
after chatting on the same URL from another tab). -/
def exStaleChatState : AppState :=
  { siteCache := exCacheWith
      { exRecordWith .NORMAL (some "<p>cached</p>") with
          chatHistory := [{ role := .model, text := "earlier", timestamp := 0 }] },
    tabs := [exTabWith .NORMAL (some "<p>cached</p>")], activeTabId := "t1" }

/-! Helper lemmas shared by the claim theorems. -/

@[simp] theorem updateTab_siteCache (i : String) (f : BrowserTab → BrowserTab) (s : AppState) :
    (updateTab i f s).siteCache = s.siteCache := rfl

@[simp] theorem updateTab_activeTabId (i : String) (f : BrowserTab → BrowserTab) (s : AppState) :
    (updateTab i f s).activeTabId = s.activeTabId := rfl

@[simp] theorem updateTab_tabs (i : String) (f : BrowserTab → BrowserTab) (s : AppState) :
    (updateTab i f s).tabs = updateTabF i f s.tabs := rfl

@[simp] theorem setCache_tabs (f : SiteCache → SiteCache) (s : AppState) :
    (setCache f s).tabs = s.tabs := rfl

@[simp] theorem setCache_activeTabId (f : SiteCache → SiteCache) (s : AppState) :
    (setCache f s).activeTabId = s.activeTabId := rfl

@[simp] theorem setCache_siteCache (f : SiteCache → SiteCache) (s : AppState) :
    (setCache f s).siteCache = f s.siteCache := rfl

/-- Finding a tab by id commutes with an id-preserving tab update. -/
theorem find?_updateTabF (i : String) (f : BrowserTab → BrowserTab)
    (hf : ∀ t, (f t).id = t.id) :
    ∀ (tabs : List BrowserTab) (t : BrowserTab),
      tabs.find? (fun x => x.id == i) = some t →
      (updateTabF i f tabs).find? (fun x => x.id == i) = some (f t) := by
  intro tabs
  induction tabs with
  | nil => intro t h; simp at h
  | cons a l ih =>
    intro t h
    cases ha : (a.id == i) with
    | false =>
      rw [List.find?_cons] at h
      simp only [ha] at h
      simp only [updateTabF, List.map_cons] at ih ⊢
      simp only [ha, Bool.false_eq_true, if_false, List.find?_cons]
      exact ih t h
    | true =>
      rw [List.find?_cons] at h
      simp only [ha] at h
      cases h
      simp only [updateTabF, List.map_cons, ha, if_true, List.find?_cons, hf]

/-! Claim theorems. -/

/-- C8 (amended): `updateCache` merges the given partial fields into the
existing record — or into the default record (status `NORMAL`, empty
transcript, no content) when absent — refreshing `lastAccessed`, leaving
every other URL untouched and every unnamed field at its previous value;
the merged record is not returned (the call returns nothing). -/
theorem updateCacheMergesFieldwise
    (hostname : String → Option String) (now : Nat) (url host : String)
    (data : SitePatch) (prev : SiteCache)
    (hhost : hostname url = some host) :
    ((updateCache hostname now url data).1 prev) url
        = some (mergeRecord ((prev url).getD (defaultRecord host url now)) data now)
    ∧ (∀ u, u ≠ url → ((updateCache hostname now url data).1 prev) u = prev u)
    ∧ (∀ (e : CachedSiteData) (d : SitePatch) (n : Nat),
        (mergeRecord e d n).title = d.title.getD e.title
        ∧ (mergeRecord e d n).content = d.content.getD e.content
        ∧ (mergeRecord e d n).status = d.status.getD e.status
        ∧ (mergeRecord e d n).chatHistory = d.chatHistory.getD e.chatHistory
        ∧ (mergeRecord e d n).url = d.url.getD e.url
        ∧ (mergeRecord e d n).lastVisited = n)
    ∧ defaultRecord host url now
        = { url := url, title := host, content := none, status := .NORMAL,
            chatHistory := [], lastVisited := now }
    ∧ (updateCache hostname now url data).2 = none := by
  refine ⟨?_, ?_, ?_, rfl, rfl⟩
  · cases h : prev url <;> simp [updateCache, h, hhost]
  · intro u hu
    simp [updateCache, hu]
  · intro e d n
    exact ⟨rfl, rfl, rfl, rfl, rfl, rfl⟩

/-- C8 witness: the theorem applied at a concrete input. -/
theorem updateCacheMergesFieldwiseWitness :
    ((updateCache exHost 3 exUrl { status := some .SLOWED }).1 (fun _ => none)) exUrl
        = some (mergeRecord (defaultRecord "example.com" exUrl 3) { status := some .SLOWED } 3) :=
  (updateCacheMergesFieldwise exHost 3 exUrl "example.com"
    { status := some .SLOWED } (fun _ => none) (by decide)).1

/-- C8 counterexample: `updateCache` returns `undefined`, not the merged
record — the claim's "the merged record is returned to the caller" fails
at this concrete call. -/
theorem updateCacheReturnsNothing :
    (updateCache exHost 3 exUrl { status := some .SLOWED }).2 = none
    ∧ (updateCache exHost 3 exUrl { status := some .SLOWED }).2
        ≠ some (mergeRecord (defaultRecord "example.com" exUrl 3) { status := some .SLOWED } 3) := by
  exact ⟨rfl, by simp [updateCache]⟩

/-- C2: navigating to a URL whose SiteRecord has status BLOCKED ends with
the tab showing `ERR_CONNECTION_RESET` and not loading, and the
content-generation collaborator is never invoked — the outcome is
independent of the generation parameter. -/
theorem blockedNavigationResetsConnection
    (hostname : String → Option String) (api : Except String (Option String)) (now : Nat)
    (s : AppState) (url : String) (newTabId : Option String)
    (targetTab : BrowserTab) (rec : CachedSiteData)
    (hfind : s.tabs.find? (fun t => t.id == newTabId.getD s.activeTabId) = some targetTab)
    (hurl : url ≠ "about:home")
    (hrec : s.siteCache url = some rec)
    (hst : rec.status = .BLOCKED) :
    (((handleNavigate hostname api now s url newTabId).tabs.find?
        (fun t => t.id == newTabId.getD s.activeTabId)).map
      (fun t => (t.error, t.isLoading))) = some (some "ERR_CONNECTION_RESET", false)
    ∧ ∀ api2, handleNavigate hostname api2 now s url newTabId
        = handleNavigate hostname api now s url newTabId := by
  have hbr : ∀ (a : Except String (Option String)),
      handleNavigate hostname a now s url newTabId
        = updateTab (newTabId.getD s.activeTabId)
            (fun t => { t with isLoading := false, error := some "ERR_CONNECTION_RESET" })
            (updateTab (newTabId.getD s.activeTabId) (fun t =>
              { t with url := url, title := rec.title, isLoading := true, error := none,
                       status := cacheStatus (some rec), chatHistory := rec.chatHistory,
                       history := targetTab.history.take (targetTab.historyIndex + 1) ++ [url],
                       historyIndex := targetTab.historyIndex + 1 }) s) := by
    intro a
    unfold handleNavigate
    simp only [hfind]
    simp [if_neg hurl, hrec, cacheStatus, hst]
  constructor
  · rw [hbr api]
    have h1 := find?_updateTabF (newTabId.getD s.activeTabId)
      (fun t =>
        { t with url := url, title := rec.title, isLoading := true, error := none,
                 status := cacheStatus (some rec), chatHistory := rec.chatHistory,
                 history := targetTab.history.take (targetTab.historyIndex + 1) ++ [url],
                 historyIndex := targetTab.historyIndex + 1 })
      (fun t => rfl) s.tabs targetTab hfind
    have h2 := find?_updateTabF (newTabId.getD s.activeTabId)
      (fun t => { t with isLoading := false, error := some "ERR_CONNECTION_RESET" })
      (fun t => rfl) _ _ h1
    simp only [updateTab_tabs, h2]
    rfl
  · intro api2
    rw [hbr api2, hbr api]

/-- C2 witness: the theorem applied at a concrete blocked record. -/
theorem blockedNavigationResetsConnectionWitness :
    (((handleNavigate exHost (Except.ok none) 0
          (exStateWith .BLOCKED (some "<p>cached</p>")) exUrl none).tabs.find?
        (fun t => t.id == (none : Option String).getD
          (exStateWith .BLOCKED (some "<p>cached</p>")).activeTabId)).map
      (fun t => (t.error, t.isLoading))) = some (some "ERR_CONNECTION_RESET", false) :=
  (blockedNavigationResetsConnection exHost (Except.ok none) 0
    (exStateWith .BLOCKED (some "<p>cached</p>")) exUrl none
    (exTabWith .BLOCKED (some "<p>cached</p>")) (exRecordWith .BLOCKED (some "<p>cached</p>"))
    (by decide) (by decide) (by decide) rfl).1

/-- C1 (amended): when a navigation to a URL without usable cached
content reaches the generation step and the URL parses, the generated
body is stored into the SiteRecord with the title set to the hostname and
the status reset to NORMAL unconditionally — a CONTENT_REMOVED status is
not preserved. -/
theorem navigateGenerationResetsStatus
    (hostname : String → Option String) (api : Except String (Option String)) (now : Nat)
    (s : AppState) (url : String) (newTabId : Option String)
    (targetTab : BrowserTab) (host : String)
    (hfind : s.tabs.find? (fun t => t.id == newTabId.getD s.activeTabId) = some targetTab)
    (hurl : url ≠ "about:home")
    (hnb : cacheStatus (s.siteCache url) ≠ .BLOCKED)
    (hnc : contentTruthy (s.siteCache url) = false)
    (hhost : hostname url = some host) :
    ((handleNavigate hostname api now s url newTabId).siteCache url).map
        (fun r => (r.status, r.content, r.title))
      = some (.NORMAL,
          some (generatePageContent api url host
            (cacheStatus (s.siteCache url) = .CONTENT_REMOVED)),
          host) := by
  unfold handleNavigate
  simp only [hfind]
  rw [if_neg hurl]
  simp only [hnc, Bool.false_eq_true, if_false, if_neg hnb]
  unfold navigateGenerate
  rw [hhost]
  simp only [updateTab_siteCache, setCache_siteCache, updateTab_tabs, setCache_tabs]
  cases h : s.siteCache url <;>
    simp [updateCache, mergeRecord, h]

/-- C1 witness: the theorem applied at a record with status SLOWED and no
cached content. -/
theorem navigateGenerationResetsStatusWitness :
    ((handleNavigate exHost (Except.ok (some "hello")) 7
        (exStateWith .SLOWED none) exUrl none).siteCache exUrl).map
        (fun r => (r.status, r.content, r.title))
      = some (.NORMAL,
          some (generatePageContent (Except.ok (some "hello")) exUrl "example.com"
            (cacheStatus ((exStateWith .SLOWED none).siteCache exUrl) = .CONTENT_REMOVED)),
          "example.com") :=
  navigateGenerationResetsStatus exHost (Except.ok (some "hello")) 7
    (exStateWith .SLOWED none) exUrl none (exTabWith .SLOWED none) "example.com"
    (by decide) (by decide) (by decide) (by decide) (by decide)

/-- C1 counterexample: a record whose status is CONTENT_REMOVED and whose
content is absent is regenerated by a navigation, and the stored record's
status becomes NORMAL — the claimed preservation of CONTENT_REMOVED
fails. -/
theorem navigateOverwritesContentRemoved :
    ((exStateWith .CONTENT_REMOVED none).siteCache exUrl).map (fun r => r.status)
        = some .CONTENT_REMOVED
    ∧ ((handleNavigate exHost (Except.ok (some "regenerated")) 5
          (exStateWith .CONTENT_REMOVED none) exUrl none).siteCache exUrl).map
        (fun r => r.status) = some .NORMAL := by
  exact ⟨by decide, by decide⟩

/-- C7 (amended): when the generation step of a navigation rejects — the
only rejection its `try` can produce is the URL constructor throwing,
since the collaborator resolves its own failures into error-text bodies —
the tab ends with the generic `ERR_CONNECTION_TIMED_OUT` fault, not
loading, and the site cache is left entirely unmodified. -/
theorem navigationRejectionLeavesRecordUntouched
    (hostname : String → Option String) (api : Except String (Option String)) (now : Nat)
    (s : AppState) (url : String) (newTabId : Option String) (targetTab : BrowserTab)
    (hfind : s.tabs.find? (fun t => t.id == newTabId.getD s.activeTabId) = some targetTab)
    (hurl : url ≠ "about:home")
    (hnb : cacheStatus (s.siteCache url) ≠ .BLOCKED)
    (hnc : contentTruthy (s.siteCache url) = false)
    (hhost : hostname url = none) :
    (handleNavigate hostname api now s url newTabId).siteCache = s.siteCache
    ∧ (((handleNavigate hostname api now s url newTabId).tabs.find?
        (fun t => t.id == newTabId.getD s.activeTabId)).map
      (fun t => (t.error, t.isLoading))) = some (some "ERR_CONNECTION_TIMED_OUT", false) := by
  have hbr : handleNavigate hostname api now s url newTabId
      = updateTab (newTabId.getD s.activeTabId)
          (fun t => { t with isLoading := false, error := some "ERR_CONNECTION_TIMED_OUT" })
          (updateTab (newTabId.getD s.activeTabId) (fun t =>
            { t with url := url,
                     title := ((s.siteCache url).map (fun c => c.title)).getD url,
                     isLoading := true, error := none,
                     status := cacheStatus (s.siteCache url),
                     chatHistory := ((s.siteCache url).map (fun c => c.chatHistory)).getD [],
                     history := targetTab.history.take (targetTab.historyIndex + 1) ++ [url],
                     historyIndex := targetTab.historyIndex + 1 }) s) := by
    unfold handleNavigate
    simp only [hfind]
    rw [if_neg hurl]
    simp only [hnc, Bool.false_eq_true, if_false, if_neg hnb]
    unfold navigateGenerate
    rw [hhost]
    cases h : s.siteCache url <;> simp [h]
  constructor
  · rw [hbr]
    rfl
  · rw [hbr]
    have h1 := find?_updateTabF (newTabId.getD s.activeTabId)
      (fun t =>
        { t with url := url,
                 title := ((s.siteCache url).map (fun c => c.title)).getD url,
                 isLoading := true, error := none,
                 status := cacheStatus (s.siteCache url),
                 chatHistory := ((s.siteCache url).map (fun c => c.chatHistory)).getD [],
                 history := targetTab.history.take (targetTab.historyIndex + 1) ++ [url],
                 historyIndex := targetTab.historyIndex + 1 })
      (fun t => rfl) s.tabs targetTab hfind
    have h2 := find?_updateTabF (newTabId.getD s.activeTabId)
      (fun t => { t with isLoading := false, error := some "ERR_CONNECTION_TIMED_OUT" })
      (fun t => rfl) _ _ h1
    simp only [updateTab_tabs, h2]
    rfl

/-- C7 witness: the theorem applied at a URL that does not parse and has
no record. -/
theorem navigationRejectionLeavesRecordUntouchedWitness :
    (handleNavigate exHost (Except.ok none) 0
        (exStateWith .NORMAL none) "nonsense" none).siteCache
      = (exStateWith .NORMAL none).siteCache :=
  (navigationRejectionLeavesRecordUntouched exHost (Except.ok none) 0
    (exStateWith .NORMAL none) "nonsense" none (exTabWith .NORMAL none)
    (by decide) (by decide) (by decide) (by decide) (by decide)).1

/-- C7 counterexample: when the external generation call itself fails,
the collaborator resolves with an error-text body and the navigation
writes it into the cache — a fresh URL gains a record whose content is
the error text and whose status is NORMAL, refuting "the SiteRecord is
left entirely unmodified and no error-text entry is written". -/
theorem generationErrorTextIsCached :
    (initAppState (fun _ => none) "t1").siteCache "https://fresh.example" = none
    ∧ ((handleNavigate (fun u => if u = "https://fresh.example" then some "fresh.example" else none)
          (Except.error "boom") 5 (initAppState (fun _ => none) "t1")
          "https://fresh.example" none).siteCache "https://fresh.example").map
        (fun r => (r.status, r.content))
      = some (.NORMAL,
          some "<div class=\"p-8\">Ошибка генерации контента: boom</div>") := by
  exact ⟨rfl, by decide⟩

/-- C3: evaluation of `handleBlock` at a concrete state — a NORMAL site
with cached content, no appeal drawn.  The SiteRecord becomes BLOCKED,
but the trailing `reloadContentForUrl` reads the pre-block render
snapshot, overwrites the tab's status back to NORMAL and serves the
cached content: the tab ends with no error instead of the claimed
connection-reset error. -/
theorem blockLeavesTabOnStaleStatus :
    (((handleBlock exHost (Except.ok none) 1 false
        (exStateWith .NORMAL (some "<p>cached</p>"))).siteCache exUrl).map (fun r => r.status))
      = some .BLOCKED
    ∧ ((handleBlock exHost (Except.ok none) 1 false
        (exStateWith .NORMAL (some "<p>cached</p>"))).tabs.map
          (fun t => (t.status, t.error, t.isLoading, t.content)))
      = [(.NORMAL, none, false, some "<p>cached</p>")] := by
  exact ⟨by decide, by decide⟩

/-- C5: evaluation of `handleCourtClose` at a concrete state — a site
under appeal with cached content, verdict UPHOLD.  The SiteRecord becomes
BLOCKED, but the trailing reload restores the tab's status to the stale
UNDER_APPEAL snapshot value and serves cached content, so the tab's
UNDER_APPEAL state is not cleared as claimed. -/
theorem courtCloseLeavesTabUnderAppeal :
    (((handleCourtClose exHost (Except.ok none) 2 .UPHOLD
        (exStateWith .UNDER_APPEAL (some "<p>cached</p>"))).siteCache exUrl).map
      (fun r => r.status)) = some .BLOCKED
    ∧ ((handleCourtClose exHost (Except.ok none) 2 .UPHOLD
        (exStateWith .UNDER_APPEAL (some "<p>cached</p>"))).tabs.map
          (fun t => (t.status, t.error, t.isLoading)))
      = [(.UNDER_APPEAL, none, false)] := by
  exact ⟨by decide, by decide⟩

/-- A reload never touches the cache when the snapshot record has usable
cached content (the cached branch, and the blocked branch, write only tab
state). -/
theorem reload_cache_of_truthy
    (hostname : String → Option String) (api : Except String (Option String)) (now : Nat)
    (s0 sAcc : AppState) (url tabId : String) (tab : BrowserTab)
    (hfind0 : s0.tabs.find? (fun t => t.id == tabId) = some tab)
    (ht : contentTruthy (s0.siteCache url) = true) :
    (reloadContentForUrl hostname api now s0 sAcc url tabId).siteCache = sAcc.siteCache := by
  unfold reloadContentForUrl
  simp only [hfind0]
  split
  · rfl
  · rfl

/-- A reload preserves the status and transcript of a record already
present in the accumulated cache: its only cache write is a
`{content: html}` merge. -/
theorem reload_cache_fields
    (hostname : String → Option String) (api : Except String (Option String)) (now : Nat)
    (s0 sAcc : AppState) (url tabId : String) (tab : BrowserTab) (r : CachedSiteData)
    (hfind0 : s0.tabs.find? (fun t => t.id == tabId) = some tab)
    (hrecAcc : sAcc.siteCache url = some r) :
    ((reloadContentForUrl hostname api now s0 sAcc url tabId).siteCache url).map
        (fun x => x.status) = some r.status
    ∧ ((reloadContentForUrl hostname api now s0 sAcc url tabId).siteCache url).map
        (fun x => x.chatHistory) = some r.chatHistory := by
  unfold reloadContentForUrl
  simp only [hfind0]
  split
  · simp [hrecAcc]
  · split
    · simp [hrecAcc]
    · unfold reloadGenerate
      cases hh : hostname url
      · simp [hrecAcc]
      · simp [updateCache, mergeRecord, hrecAcc]

/-- C4 (amended): after a negotiation exchange the SiteRecord's
transcript equals the tab's transcript snapshot extended by the
regulator's entry and the owner's reply entry, in order — which is an
append to the record's transcript exactly when the tab's snapshot agrees
with it, and a replacement that loses the record's extra entries when the
snapshot is stale.  A reply with `agreedToRemove = true` sets the
record's status to CONTENT_REMOVED independent of the reply text; the
cached content ends cleared provided the record had usable cached content
at the start of the exchange — when it had none, the immediate
re-resolution regenerates and re-caches a body under the
still-CONTENT_REMOVED record. -/
theorem chatRemovalUpdatesRecord
    (hostname : String → Option String) (api : Except String (Option String))
    (reply : String) (agreed : Bool) (now1 now2 : Nat) (text : String)
    (s : AppState) (tab : BrowserTab) (rec : CachedSiteData)
    (hfind : s.tabs.find? (fun t => t.id == s.activeTabId) = some tab)
    (hurl : tab.url ≠ "about:home")
    (hrec : s.siteCache tab.url = some rec) :
    (((handleChatSendMessage hostname api reply agreed now1 now2 text s).siteCache tab.url).map
        (fun r => r.chatHistory))
      = some (tab.chatHistory
          ++ [{ role := .user, text := text, timestamp := now1 },
              { role := .model, text := reply, timestamp := now2 }])
    ∧ (agreed = true →
        (((handleChatSendMessage hostname api reply agreed now1 now2 text s).siteCache
            tab.url).map (fun r => r.status)) = some .CONTENT_REMOVED)
    ∧ (agreed = true → contentTruthy (some rec) = true →
        (((handleChatSendMessage hostname api reply agreed now1 now2 text s).siteCache
            tab.url).map (fun r => r.content)) = some none) := by
  have htid : tab.id = s.activeTabId := by
    have hb := List.find?_some hfind
    exact eq_of_beq hb
  have hfind0 : s.tabs.find? (fun t => t.id == tab.id) = some tab := by
    rw [htid]
    exact hfind
  cases agreed with
  | false =>
    have hbr : handleChatSendMessage hostname api reply false now1 now2 text s
        = updateTab s.activeTabId
            (fun t => { t with chatHistory := tab.chatHistory ++ [{ role := .user, text := text, timestamp := now1 }] ++ [{ role := .model, text := reply, timestamp := now2 }] })
            (setCache (updateCache hostname now2 tab.url
                { chatHistory := some (tab.chatHistory ++ [{ role := .user, text := text, timestamp := now1 }] ++ [{ role := .model, text := reply, timestamp := now2 }]) }).1
              (setCache (updateCache hostname now1 tab.url
                  { chatHistory := some (tab.chatHistory ++ [{ role := .user, text := text, timestamp := now1 }]) }).1
                (updateTab s.activeTabId
                  (fun t => { t with chatHistory := tab.chatHistory ++ [{ role := .user, text := text, timestamp := now1 }] }) s))) := by
      unfold handleChatSendMessage
      simp only [hfind]
      rw [if_neg hurl]
      simp
    refine ⟨?_, ?_, ?_⟩
    · rw [hbr]
      simp [updateCache, mergeRecord, hrec]
    · intro h
      simp at h
    · intro h
      simp at h
  | true =>
    have hbr : handleChatSendMessage hostname api reply true now1 now2 text s
        = reloadContentForUrl hostname api now2 s
            (updateTab s.activeTabId
              (fun t => { t with chatHistory := tab.chatHistory ++ [{ role := .user, text := text, timestamp := now1 }] ++ [{ role := .model, text := reply, timestamp := now2 }], status := .CONTENT_REMOVED })
              (setCache (updateCache hostname now2 tab.url
                  { chatHistory := some (tab.chatHistory ++ [{ role := .user, text := text, timestamp := now1 }] ++ [{ role := .model, text := reply, timestamp := now2 }]), status := some .CONTENT_REMOVED, content := some none }).1
                (setCache (updateCache hostname now1 tab.url
                    { chatHistory := some (tab.chatHistory ++ [{ role := .user, text := text, timestamp := now1 }]) }).1
                  (updateTab s.activeTabId
                    (fun t => { t with chatHistory := tab.chatHistory ++ [{ role := .user, text := text, timestamp := now1 }] }) s))))
            tab.url tab.id := by
      unfold handleChatSendMessage
      simp only [hfind]
      rw [if_neg hurl]
      simp
    have hs4 : ((updateTab s.activeTabId
          (fun t => { t with chatHistory := tab.chatHistory ++ [{ role := .user, text := text, timestamp := now1 }] ++ [{ role := .model, text := reply, timestamp := now2 }], status := .CONTENT_REMOVED })
          (setCache (updateCache hostname now2 tab.url
              { chatHistory := some (tab.chatHistory ++ [{ role := .user, text := text, timestamp := now1 }] ++ [{ role := .model, text := reply, timestamp := now2 }]), status := some .CONTENT_REMOVED, content := some none }).1
            (setCache (updateCache hostname now1 tab.url
                { chatHistory := some (tab.chatHistory ++ [{ role := .user, text := text, timestamp := now1 }]) }).1
              (updateTab s.activeTabId
                (fun t => { t with chatHistory := tab.chatHistory ++ [{ role := .user, text := text, timestamp := now1 }] }) s)))).siteCache) tab.url
        = some { url := rec.url, title := rec.title, content := none, status := .CONTENT_REMOVED, chatHistory := tab.chatHistory ++ [{ role := .user, text := text, timestamp := now1 }] ++ [{ role := .model, text := reply, timestamp := now2 }], lastVisited := now2 } := by
      simp [updateCache, mergeRecord, hrec]
    have hfields := reload_cache_fields hostname api now2 s _ tab.url tab.id tab _ hfind0 hs4
    refine ⟨?_, fun _ => ?_, fun _ htr => ?_⟩
    · rw [hbr]
      rw [hfields.2]
      simp
    · rw [hbr]
      rw [hfields.1]
    · rw [hbr]
      have htr2 : contentTruthy (s.siteCache tab.url) = true := by
        rw [hrec]
        exact htr
      rw [reload_cache_of_truthy hostname api now2 s _ tab.url tab.id tab hfind0 htr2]
      rw [hs4]
      rfl

/-- C4 witness: the amended theorem applied at a record with cached
content and an agreeing reply. -/
theorem chatRemovalUpdatesRecordWitness :
    (((handleChatSendMessage exHost (Except.ok none) "ok" true 1 2 "please remove"
        (exStateWith .NORMAL (some "<p>cached</p>"))).siteCache exUrl).map
      (fun r => r.content)) = some none :=
  (chatRemovalUpdatesRecord exHost (Except.ok none) "ok" true 1 2 "please remove"
    (exStateWith .NORMAL (some "<p>cached</p>"))
    (exTabWith .NORMAL (some "<p>cached</p>")) (exRecordWith .NORMAL (some "<p>cached</p>"))
    (by decide) (by decide) (by decide)).2.2 rfl (by decide)

/-- C4 counterexample: the claim fails at two concrete inputs.  First,
with a stale tab snapshot — the record already holds an earlier entry the
tab's transcript lacks — the exchange replaces the record's transcript
with the snapshot plus the two new entries, losing the earlier entry
instead of appending both entries to the record's transcript.  Second,
when the record had no usable cached content, an agreeing reply's
immediate re-resolution regenerates a body and writes it back into the
record, so the cached content does not end cleared. -/
theorem chatTranscriptClobberAndRegeneration :
    ((exStaleChatState.siteCache exUrl).map (fun r => r.chatHistory))
        = some [{ role := .model, text := "earlier", timestamp := 0 }]
    ∧ (((handleChatSendMessage exHost (Except.ok none) "ok" false 1 2 "please remove"
          exStaleChatState).siteCache exUrl).map (fun r => r.chatHistory))
        = some [{ role := .user, text := "please remove", timestamp := 1 },
                { role := .model, text := "ok", timestamp := 2 }]
    ∧ (((handleChatSendMessage exHost (Except.ok none) "ok" false 1 2 "please remove"
          exStaleChatState).siteCache exUrl).map (fun r => r.chatHistory))
        ≠ some [{ role := .model, text := "earlier", timestamp := 0 },
                { role := .user, text := "please remove", timestamp := 1 },
                { role := .model, text := "ok", timestamp := 2 }]
    ∧ ((exStateWith .NORMAL none).siteCache exUrl).map (fun r => r.content) = some none
    ∧ (((handleChatSendMessage exHost (Except.ok (some "regen")) "ok" true 1 2 "please remove"
          (exStateWith .NORMAL none)).siteCache exUrl).map
        (fun r => (r.status, r.content.isSome))) = some (.CONTENT_REMOVED, true) := by
  exact ⟨by decide, by decide, by decide, by decide, by decide⟩

/-- C9 (amended): `searchWeb` fails closed — on any error of the external
call or of result parsing it returns the fixed five-entry fallback list,
and it never propagates an error; a successfully parsed list is returned
as-is, without enforcing the five-result cap requested in the prompt. -/
theorem searchWebFailsClosed
    (call : Except Unit (Option String))
    (parse : String → Except Unit (List SearchResult)) :
    (∀ e, call = .error e → searchWeb call parse = fallbackResults)
    ∧ (∀ t, call = .ok t → cleanResponse t = "" → searchWeb call parse = [])
    ∧ (∀ t e, call = .ok t → cleanResponse t ≠ "" →
        parse (cleanResponse t) = .error e → searchWeb call parse = fallbackResults)
    ∧ (∀ t rs, call = .ok t → cleanResponse t ≠ "" →
        parse (cleanResponse t) = .ok rs → searchWeb call parse = rs)
    ∧ fallbackResults.length = 5 := by
  refine ⟨?_, ?_, ?_, ?_, rfl⟩
  · intro e h; subst h; rfl
  · intro t h he; subst h; simp [searchWeb, he]
  · intro t e h hne hp; subst h; simp [searchWeb, hne, hp]
  · intro t rs h hne hp; subst h; simp [searchWeb, hne, hp]

/-- C9 witness: the fail-closed branch applied at a concrete erroring
call. -/
theorem searchWebFailsClosedWitness :
    searchWeb (Except.error ()) (fun _ => Except.ok []) = fallbackResults :=
  (searchWebFailsClosed (Except.error ()) (fun _ => Except.ok [])).1 () rfl

/-- C9 counterexample: nothing truncates the parsed list, so a response
that parses to six results is returned with six results, refuting the
claimed "at most 5" bound. -/
theorem searchWebCanExceedFive :
    5 < (searchWeb (Except.ok (some "payload"))
      (fun _ => Except.ok (List.replicate 6
        { title := "Extra", url := "https://extra.example", snippet := "x" }))).length := by
  decide

/-- Opening a fresh tab with an unused id preserves the tab-list
invariant. -/
theorem newTab_TabInv (s : AppState) (newId : String)
    (hinv : TabInv s) (hfresh : ∀ t ∈ s.tabs, t.id ≠ newId) :
    TabInv (handleNewTab newId s) := by
  obtain ⟨h1, h2, h3⟩ := hinv
  refine ⟨by simp [handleNewTab], ⟨initialTab newId, by simp [handleNewTab], rfl⟩, ?_⟩
  simp only [handleNewTab, List.map_append]
  rw [List.nodup_append]
  refine ⟨h3, by simp, ?_⟩
  intro a ha hb
  simp only [List.map_cons, List.map_nil, List.mem_singleton] at hb
  obtain ⟨t, ht, rfl⟩ := List.mem_map.mp ha
  exact hfresh t ht hb

/-- In a list of at least two tabs with pairwise-distinct ids, some tab
has an id other than `i`. -/
theorem exists_other_tab (tabs : List BrowserTab) (i : String)
    (hlen : tabs.length ≠ 1) (hne : tabs ≠ [])
    (hnd : (tabs.map (fun t => t.id)).Nodup) :
    ∃ u ∈ tabs, u.id ≠ i := by
  match tabs with
  | [] => exact absurd rfl hne
  | [a] => exact absurd rfl hlen
  | a :: b :: rest =>
    by_cases hai : a.id = i
    · refine ⟨b, by simp, ?_⟩
      intro hbi
      rw [List.map_cons, List.nodup_cons] at hnd
      exact hnd.1 (by rw [hai, ← hbi]; exact List.mem_map_of_mem _ (by simp))
    · exact ⟨a, by simp, hai⟩

/-- Closing any tab preserves the tab-list invariant. -/
theorem closeTab_TabInv (s : AppState) (i : String) (hinv : TabInv s) :
    TabInv (handleCloseTab i s) := by
  obtain ⟨hne, ⟨ta, hta, htaid⟩, hnd⟩ := hinv
  unfold handleCloseTab
  by_cases hlen : s.tabs.length = 1
  · rw [if_pos hlen]
    exact ⟨hne, ⟨ta, hta, htaid⟩, hnd⟩
  · rw [if_neg hlen]
    have hnd2 : ((s.tabs.filter (fun t => t.id != i)).map (fun t => t.id)).Nodup :=
      List.Nodup.sublist (List.Sublist.map _ (List.filter_sublist _)) hnd
    by_cases hact : s.activeTabId = i
    · obtain ⟨u, hu, hui⟩ := exists_other_tab s.tabs i hlen hne hnd
      have humem : u ∈ s.tabs.filter (fun t => t.id != i) :=
        List.mem_filter.mpr ⟨hu, bne_iff_ne.mpr hui⟩
      have hfne : s.tabs.filter (fun t => t.id != i) ≠ [] := by
        intro h0
        rw [h0] at humem
        simp at humem
      have hgl := List.getLast?_eq_getLast _ hfne
      refine ⟨hfne, ?_, hnd2⟩
      refine ⟨(s.tabs.filter (fun t => t.id != i)).getLast hfne, List.getLast_mem hfne, ?_⟩
      dsimp only
      simp only [beq_iff_eq, if_pos hact, hgl]
    · have hmem : ta ∈ s.tabs.filter (fun t => t.id != i) := by
        refine List.mem_filter.mpr ⟨hta, bne_iff_ne.mpr ?_⟩
        rw [htaid]
        exact hact
      refine ⟨?_, ⟨ta, hmem, ?_⟩, hnd2⟩
      · intro h0
        dsimp only at h0
        rw [h0] at hmem
        simp at hmem
      · dsimp only
        simp only [beq_iff_eq, if_neg hact]
        exact htaid

/-- The tab-list invariant holds along any run of tab operations whose
new-tab ids are fresh. -/
theorem runTabOps_TabInv : ∀ (ops : List TabOp) (s : AppState),
    TabInv s → opsFresh s ops = true → TabInv (runTabOps ops s) := by
  intro ops
  induction ops with
  | nil => exact fun s h _ => h
  | cons op rest ih =>
    intro s hinv hfresh
    rw [opsFresh, Bool.and_eq_true] at hfresh
    have hstep : TabInv (applyTabOp s op) := by
      cases op with
      | newTab nid =>
        refine newTab_TabInv s nid hinv (fun t ht => ?_)
        exact bne_iff_ne.mp (List.all_eq_true.mp hfresh.1 t ht)
      | closeTab cid => exact closeTab_TabInv s cid hinv
    exact ih (applyTabOp s op) hstep hfresh.2

/-- C10: starting from the initial single-tab state, after any sequence
of new-tab and close-tab operations (with fresh random ids) the open-tab
list is nonempty, the active id denotes an open tab, and `getActiveTab`'s
lookup succeeds; `handleCloseTab` is a no-op when exactly one tab
remains, and closing the active tab re-targets the active id to the last
remaining tab. -/
theorem tabListNeverEmpty :
    (∀ (c0 : SiteCache) (id : String) (ops : List TabOp),
        opsFresh (initAppState c0 id) ops = true →
        TabInv (runTabOps ops (initAppState c0 id))
        ∧ (runTabOps ops (initAppState c0 id)).tabs.find?
            (fun t => t.id == (runTabOps ops (initAppState c0 id)).activeTabId) ≠ none)
    ∧ (∀ (s : AppState) (i : String), s.tabs.length = 1 → handleCloseTab i s = s)
    ∧ (∀ (s : AppState) (t2 : BrowserTab), s.tabs.length ≠ 1 →
        (s.tabs.filter (fun x => x.id != s.activeTabId)).getLast? = some t2 →
        (handleCloseTab s.activeTabId s).activeTabId = t2.id
        ∧ t2 ∈ (handleCloseTab s.activeTabId s).tabs) := by
  refine ⟨?_, ?_, ?_⟩
  · intro c0 id ops hfresh
    have hinv0 : TabInv (initAppState c0 id) :=
      ⟨by simp [initAppState], ⟨initialTab id, by simp [initAppState], rfl⟩,
        by simp [initAppState]⟩
    have hinv := runTabOps_TabInv ops _ hinv0 hfresh
    refine ⟨hinv, ?_⟩
    obtain ⟨-, ⟨t, ht, htid⟩, -⟩ := hinv
    intro h0
    rw [List.find?_eq_none] at h0
    exact h0 t ht (by simp [htid])
  · intro s i h
    unfold handleCloseTab
    rw [if_pos h]
  · intro s t2 hlen hgl
    unfold handleCloseTab
    rw [if_neg hlen]
    constructor
    · dsimp only
      simp [hgl]
    · have hmem : t2 ∈ s.tabs.filter (fun x => x.id != s.activeTabId) := by
        have hfne : s.tabs.filter (fun x => x.id != s.activeTabId) ≠ [] := by
          intro h0
          rw [h0] at hgl
          simp at hgl
        rw [List.getLast?_eq_getLast _ hfne] at hgl
        cases hgl
        exact List.getLast_mem hfne
      simpa using hmem

/-- C10 witness: the invariant conclusion applied to a concrete run that
opens a second tab and closes the first. -/
theorem tabListNeverEmptyWitness :
    (runTabOps [TabOp.newTab "b", TabOp.closeTab "a"]
        (initAppState (fun _ => none) "a")).tabs.find?
      (fun t => t.id == (runTabOps [TabOp.newTab "b", TabOp.closeTab "a"]
        (initAppState (fun _ => none) "a")).activeTabId) ≠ none :=
  (tabListNeverEmpty.1 (fun _ => none) "a"
    [TabOp.newTab "b", TabOp.closeTab "a"] (by decide)).2

/-- An id-preserving, history-preserving tab update leaves the
navigation projection of every tab unchanged. -/
theorem map_navProj_updateTabF (i : String) (f : BrowserTab → BrowserTab)
    (hf : ∀ x, navProj (f x) = navProj x) :
    ∀ l : List BrowserTab, (updateTabF i f l).map navProj = l.map navProj := by
  intro l
  induction l with
  | nil => rfl
  | cons a l2 ih =>
    simp only [updateTabF, List.map_cons] at ih ⊢
    rw [ih]
    by_cases ha : (a.id == i) = true
    · rw [if_pos ha, hf]
    · rw [if_neg ha]

/-- A content reload touches no tab's id, history or history position,
and leaves the active tab id alone. -/
theorem reload_navProj (hostname : String → Option String)
    (api : Except String (Option String)) (now : Nat)
    (s0 sAcc : AppState) (url tabId : String) :
    ((reloadContentForUrl hostname api now s0 sAcc url tabId).tabs).map navProj
        = sAcc.tabs.map navProj
    ∧ (reloadContentForUrl hostname api now s0 sAcc url tabId).activeTabId
        = sAcc.activeTabId := by
  cases hf : s0.tabs.find? (fun t => t.id == tabId) with
  | none =>
    unfold reloadContentForUrl
    simp only [hf]
    trivial
  | some tab =>
    unfold reloadContentForUrl
    simp only [hf]
    constructor
    · split
      · simp only [updateTab_tabs]
        rw [map_navProj_updateTabF, map_navProj_updateTabF]
        all_goals exact fun x => rfl
      · split
        · simp only [updateTab_tabs]
          rw [map_navProj_updateTabF, map_navProj_updateTabF]
          all_goals exact fun x => rfl
        · unfold reloadGenerate
          cases hh : hostname url
          · simp only [updateTab_tabs]
            rw [map_navProj_updateTabF, map_navProj_updateTabF]
            all_goals exact fun x => rfl
          · simp only [updateTab_tabs, setCache_tabs]
            rw [map_navProj_updateTabF, map_navProj_updateTabF]
            all_goals exact fun x => rfl
    · split
      · rfl
      · split
        · rfl
        · unfold reloadGenerate
          cases hh : hostname url
          · rfl
          · rfl

/-- Reading the navigation projection of a singleton tab list. -/
theorem map_navProj_singleton (l : List BrowserTab) (p : String × List String × Nat)
    (h : l.map navProj = [p]) :
    l = [l.headD (initialTab "")] ∧ navProj (l.headD (initialTab "")) = p := by
  cases l with
  | nil => simp at h
  | cons a l2 =>
    cases l2 with
    | nil =>
      simp only [List.map_cons, List.map_nil, List.cons.injEq] at h
      exact ⟨rfl, h.1⟩
    | cons b l3 => simp at h

/-- Effect of a navigation on the single tab of a one-tab state: every
branch of the handler truncates the forward history at the current
position, appends the new URL and advances the position by one. -/
theorem navigate_single (hostname : String → Option String)
    (api : Except String (Option String)) (now : Nat)
    (s : AppState) (t : BrowserTab) (url : String)
    (hs : s.tabs = [t]) (hact : s.activeTabId = t.id) :
    (handleNavigate hostname api now s url none).tabs.length = 1
    ∧ (handleNavigate hostname api now s url none).activeTabId = t.id
    ∧ (theTab (handleNavigate hostname api now s url none)).id = t.id
    ∧ (theTab (handleNavigate hostname api now s url none)).history
        = t.history.take (t.historyIndex + 1) ++ [url]
    ∧ (theTab (handleNavigate hostname api now s url none)).historyIndex
        = t.historyIndex + 1 := by
  have hbt : (t.id == s.activeTabId) = true := by simp [hact]
  have hfind : s.tabs.find?
      (fun x => x.id == (none : Option String).getD s.activeTabId) = some t := by
    rw [hs]
    simp [List.find?_cons, hbt]
  unfold handleNavigate
  simp only [hfind]
  split
  · next hurl =>
    simp [theTab, hs, updateTabF, hbt, hact, hurl]
  · split
    · simp [theTab, hs, updateTabF, hbt, hact]
    · split
      · simp [theTab, hs, updateTabF, hbt, hact]
      · unfold navigateGenerate
        cases hh : hostname url
        · simp [theTab, hs, updateTabF, hbt, hact]
        · simp [theTab, hs, updateTabF, hbt, hact]

/-- Effect of a back step on the single tab of a one-tab state: the
history stack is unchanged and the position moves down by one (saturating
at zero, where the handler is a no-op). -/
theorem back_single (hostname : String → Option String)
    (api : Except String (Option String)) (now : Nat)
    (s : AppState) (t : BrowserTab)
    (hs : s.tabs = [t]) (hact : s.activeTabId = t.id) :
    (handleBack hostname api now s).tabs.length = 1
    ∧ (handleBack hostname api now s).activeTabId = t.id
    ∧ (theTab (handleBack hostname api now s)).id = t.id
    ∧ (theTab (handleBack hostname api now s)).history = t.history
    ∧ (theTab (handleBack hostname api now s)).historyIndex = t.historyIndex - 1 := by
  have hbt : (t.id == s.activeTabId) = true := by simp [hact]
  have hfind : s.tabs.find? (fun x => x.id == s.activeTabId) = some t := by
    rw [hs]
    simp [List.find?_cons, hbt]
  unfold handleBack
  simp only [hfind]
  split
  · next hpos =>
    split
    · simp [theTab, hs, updateTabF, hbt, hact]
    · obtain ⟨hm, ha⟩ := reload_navProj hostname api now s
        (updateTab s.activeTabId
          (fun x => { x with historyIndex := t.historyIndex - 1,
                             url := t.history.getD (t.historyIndex - 1) "" }) s)
        (t.history.getD (t.historyIndex - 1) "") t.id
      have hS1 : ((updateTab s.activeTabId
          (fun x => { x with historyIndex := t.historyIndex - 1,
                             url := t.history.getD (t.historyIndex - 1) "" }) s).tabs).map navProj
          = [(t.id, t.history, t.historyIndex - 1)] := by
        simp [hs, updateTabF, hbt, hact, navProj]
      rw [hS1] at hm
      obtain ⟨hsingle, hproj⟩ := map_navProj_singleton _ _ hm
      refine ⟨by rw [hsingle]; rfl, ?_, ?_, ?_, ?_⟩
      · rw [ha]
        simp [hact]
      · exact congrArg (fun p => p.1) hproj
      · exact congrArg (fun p => p.2.1) hproj
      · exact congrArg (fun p => p.2.2) hproj
  · next hpos =>
    have h0 : t.historyIndex = 0 := by omega
    refine ⟨by rw [hs]; rfl, hact, ?_, ?_, ?_⟩
    · simp [theTab, hs]
    · simp [theTab, hs]
    · simp [theTab, hs, h0]

/-- Effect of a forward step on the single tab of a one-tab state: the
history stack is unchanged and the position moves up by one when a
forward entry exists, otherwise nothing happens. -/
theorem forward_single (hostname : String → Option String)
    (api : Except String (Option String)) (now : Nat)
    (s : AppState) (t : BrowserTab)
    (hs : s.tabs = [t]) (hact : s.activeTabId = t.id) :
    (handleForward hostname api now s).tabs.length = 1
    ∧ (handleForward hostname api now s).activeTabId = t.id
    ∧ (theTab (handleForward hostname api now s)).id = t.id
    ∧ (theTab (handleForward hostname api now s)).history = t.history
    ∧ (theTab (handleForward hostname api now s)).historyIndex
        = (if t.historyIndex < t.history.length - 1 then t.historyIndex + 1
           else t.historyIndex) := by
  have hbt : (t.id == s.activeTabId) = true := by simp [hact]
  have hfind : s.tabs.find? (fun x => x.id == s.activeTabId) = some t := by
    rw [hs]
    simp [List.find?_cons, hbt]
  unfold handleForward
  simp only [hfind]
  split
  · next hpos =>
    split
    · simp [theTab, hs, updateTabF, hbt, hact]
    · obtain ⟨hm, ha⟩ := reload_navProj hostname api now s
        (updateTab s.activeTabId
          (fun x => { x with historyIndex := t.historyIndex + 1,
                             url := t.history.getD (t.historyIndex + 1) "" }) s)
        (t.history.getD (t.historyIndex + 1) "") t.id
      have hS1 : ((updateTab s.activeTabId
          (fun x => { x with historyIndex := t.historyIndex + 1,
                             url := t.history.getD (t.historyIndex + 1) "" }) s).tabs).map navProj
          = [(t.id, t.history, t.historyIndex + 1)] := by
        simp [hs, updateTabF, hbt, hact, navProj]
      rw [hS1] at hm
      obtain ⟨hsingle, hproj⟩ := map_navProj_singleton _ _ hm
      refine ⟨by rw [hsingle]; rfl, ?_, ?_, ?_, ?_⟩
      · rw [ha]
        simp [hact]
      · exact congrArg (fun p => p.1) hproj
      · exact congrArg (fun p => p.2.1) hproj
      · exact congrArg (fun p => p.2.2) hproj
  · next hpos =>
    refine ⟨by rw [hs]; rfl, hact, ?_, ?_, ?_⟩
    · simp [theTab, hs]
    · simp [theTab, hs]
    · simp [theTab, hs]

/-- A state with exactly one tab is the singleton of its `theTab`. -/
theorem tabs_single_of_length (s : AppState) (h : s.tabs.length = 1) :
    s.tabs = [theTab s] := by
  cases hl : s.tabs with
  | nil =>
    rw [hl] at h
    simp at h
  | cons a l2 =>
    cases l2 with
    | nil => simp [theTab, hl]
    | cons b l3 =>
      rw [hl] at h
      simp at h

/-- Along any run of navigation operations from a well-formed one-tab
state, the state keeps exactly one tab, the active id denotes it, and the
history invariant `historyIndex < length history` is maintained. -/
theorem runNavOps_shape (hostname : String → Option String) (now : Nat) :
    ∀ (ops : List NavOp) (s : AppState) (t : BrowserTab),
      s.tabs = [t] → s.activeTabId = t.id → t.historyIndex < t.history.length →
      (runNavOps hostname now ops s).tabs = [theTab (runNavOps hostname now ops s)]
      ∧ (runNavOps hostname now ops s).activeTabId
          = (theTab (runNavOps hostname now ops s)).id
      ∧ (theTab (runNavOps hostname now ops s)).historyIndex
          < (theTab (runNavOps hostname now ops s)).history.length := by
  intro ops
  induction ops with
  | nil =>
    intro s t hs hact hinv
    refine ⟨?_, ?_, ?_⟩ <;> simp [runNavOps, theTab, hs, hact, hinv]
  | cons op rest ih =>
    intro s t hs hact hinv
    have hrun : runNavOps hostname now (op :: rest) s
        = runNavOps hostname now rest (applyNavOp hostname now s op) := rfl
    rw [hrun]
    cases op with
    | nav url api =>
      obtain ⟨hA, hB, hC, hD, hE⟩ := navigate_single hostname api now s t url hs hact
      refine ih _ (theTab (applyNavOp hostname now s (.nav url api)))
        (tabs_single_of_length _ hA) (hB.trans hC.symm) ?_
      show (theTab (handleNavigate hostname api now s url none)).historyIndex
          < (theTab (handleNavigate hostname api now s url none)).history.length
      rw [hD, hE]
      simp only [List.length_append, List.length_take, List.length_cons, List.length_nil]
      omega
    | back api =>
      obtain ⟨hA, hB, hC, hD, hE⟩ := back_single hostname api now s t hs hact
      refine ih _ (theTab (applyNavOp hostname now s (.back api)))
        (tabs_single_of_length _ hA) (hB.trans hC.symm) ?_
      show (theTab (handleBack hostname api now s)).historyIndex
          < (theTab (handleBack hostname api now s)).history.length
      rw [hD, hE]
      omega
    | fwd api =>
      obtain ⟨hA, hB, hC, hD, hE⟩ := forward_single hostname api now s t hs hact
      refine ih _ (theTab (applyNavOp hostname now s (.fwd api)))
        (tabs_single_of_length _ hA) (hB.trans hC.symm) ?_
      show (theTab (handleForward hostname api now s)).historyIndex
          < (theTab (handleForward hostname api now s)).history.length
      rw [hD, hE]
      split <;> omega

/-- C6: starting from the initial tab state, after any sequence of
navigate/back/forward operations the invariant `historyIndex <
length history` holds (with `0 ≤ historyIndex` inherent in the natural
index); one further back or forward step leaves the history stack
unchanged and only moves the position inside its bounds, and one further
navigation first truncates every entry after the current position and
then appends the new URL, advancing the position by one. -/
theorem historyInvariantAndTruncation (hostname : String → Option String) (now : Nat)
    (c0 : SiteCache) (id : String) (ops : List NavOp)
    (api : Except String (Option String)) (url : String) :
    (theTab (runNavOps hostname now ops (initAppState c0 id))).historyIndex
        < (theTab (runNavOps hostname now ops (initAppState c0 id))).history.length
    ∧ (theTab (runNavOps hostname now (ops ++ [NavOp.back api]) (initAppState c0 id))).history
        = (theTab (runNavOps hostname now ops (initAppState c0 id))).history
    ∧ (theTab (runNavOps hostname now (ops ++ [NavOp.back api]) (initAppState c0 id))).historyIndex
        = (theTab (runNavOps hostname now ops (initAppState c0 id))).historyIndex - 1
    ∧ (theTab (runNavOps hostname now (ops ++ [NavOp.fwd api]) (initAppState c0 id))).history
        = (theTab (runNavOps hostname now ops (initAppState c0 id))).history
    ∧ (theTab (runNavOps hostname now (ops ++ [NavOp.fwd api]) (initAppState c0 id))).historyIndex
        = (if (theTab (runNavOps hostname now ops (initAppState c0 id))).historyIndex
              < (theTab (runNavOps hostname now ops (initAppState c0 id))).history.length - 1
           then (theTab (runNavOps hostname now ops (initAppState c0 id))).historyIndex + 1
           else (theTab (runNavOps hostname now ops (initAppState c0 id))).historyIndex)
    ∧ (theTab (runNavOps hostname now (ops ++ [NavOp.nav url api]) (initAppState c0 id))).history
        = (theTab (runNavOps hostname now ops (initAppState c0 id))).history.take
            ((theTab (runNavOps hostname now ops (initAppState c0 id))).historyIndex + 1)
          ++ [url]
    ∧ (theTab (runNavOps hostname now (ops ++ [NavOp.nav url api]) (initAppState c0 id))).historyIndex
        = (theTab (runNavOps hostname now ops (initAppState c0 id))).historyIndex + 1 := by
  obtain ⟨hs1, hact1, hinv1⟩ := runNavOps_shape hostname now ops (initAppState c0 id)
    (initialTab id) rfl rfl (by simp [initialTab])
  have happ : ∀ op : NavOp, runNavOps hostname now (ops ++ [op]) (initAppState c0 id)
      = applyNavOp hostname now (runNavOps hostname now ops (initAppState c0 id)) op := by
    intro op
    simp [runNavOps, List.foldl_append]
  obtain ⟨hbA, hbB, hbC, hbD, hbE⟩ := back_single hostname api now _ _ hs1 hact1
  obtain ⟨hfA, hfB, hfC, hfD, hfE⟩ := forward_single hostname api now _ _ hs1 hact1
  obtain ⟨hnA, hnB, hnC, hnD, hnE⟩ := navigate_single hostname api now _ _ url hs1 hact1
  refine ⟨hinv1, ?_, ?_, ?_, ?_, ?_, ?_⟩
  · rw [happ]
    exact hbD
  · rw [happ]
    exact hbE
  · rw [happ]
    exact hfD
  · rw [happ]
    exact hfE
  · rw [happ]
    exact hnD
  · rw [happ]
    exact hnE

end RknSim
